import Mathlib

/-!
# MORIS — SDF bounding data, SDF core configuration, interpolation PDV host

Shallow embedding of

* `projects/GEN/SDF/src/cl_SDF_Data.cpp` (`Data::Data`, `Data::init_triangles`),
* `projects/GEN/SDF/src/cl_SDF_Core.hpp` (configuration members and setters of `Core`),
* `projects/GEN/GEN_MAIN/src/pdv/cl_GEN_Interpolation_Pdv_Host.cpp`,
* `projects/GEN/src/field/geometry/cl_GEN_Plane.hpp` (constructor from ADVs).

`Core::sweep`, `Core::force_unsure_nodes_outside` and the `Triangle` class are
declared outside these files; their definitions below are marked as modelled
from the specification.

Conventions.  `real` is embedded as `ℚ` (exact arithmetic, no rounding, no NaN),
`uint` as `Nat`, `sint`/`moris_id`/`moris_index` as `Int`.  A `moris::Cell` or a
column `Matrix` is a `List`; reading or writing outside its bounds is reported
as an error instead of being undefined.  `MORIS_ERROR` and `MORIS_ASSERT` are
embedded as checks that abort the call with an error when their condition is
false.  A `std::shared_ptr` that may be `nullptr` is an `Option`.
-/

namespace moris

/-- The scalar type `real`. -/
abbrev real := ℚ

namespace sdf

/-! ## Triangles and their bounding data (`cl_SDF_Data.cpp`) -/

/-- Coordinates of one node of a triangle, indexed by the axis `0, 1, 2`. -/
structure Triangle_Vertex where
  x : real
  y : real
  z : real
  deriving DecidableEq

/-- The coordinate of a node along axis `aDimension` (X = 0, Y = 1, Z = 2). -/
def Triangle_Vertex.get_coord (v : Triangle_Vertex) (aDimension : Fin 3) : real :=
  match aDimension with
  | 0 => v.x
  | 1 => v.y
  | 2 => v.z

/-- A triangle of the surface object: its three nodes. -/
structure Triangle where
  v0 : Triangle_Vertex
  v1 : Triangle_Vertex
  v2 : Triangle_Vertex
  deriving DecidableEq

/-- The three nodes of a triangle. -/
def Triangle.vertices (t : Triangle) : List Triangle_Vertex :=
  [t.v0, t.v1, t.v2]

/-- Modelled from the spec: `Triangle::get_min_coord` is declared in
`cl_SDF_Triangle.hpp`, which is not among the sources; the per-axis minimum
bounding coordinate of a primitive is the minimum of the coordinates of its
vertices along that axis. -/
def Triangle.get_min_coord (t : Triangle) (aDimension : Fin 3) : real :=
  min (min (t.v0.get_coord aDimension) (t.v1.get_coord aDimension))
    (t.v2.get_coord aDimension)

/-- Modelled from the spec: `Triangle::get_max_coord` is declared in
`cl_SDF_Triangle.hpp`, which is not among the sources; the per-axis maximum
bounding coordinate of a primitive is the maximum of the coordinates of its
vertices along that axis. -/
def Triangle.get_max_coord (t : Triangle) (aDimension : Fin 3) : real :=
  max (max (t.v0.get_coord aDimension) (t.v1.get_coord aDimension))
    (t.v2.get_coord aDimension)

/-- The members of `Data` that `init_triangles` reads and writes. -/
structure Data where
  mTriangles : List Triangle
  mNumberOfTriangles : Nat
  mTriangleMinCoordsX : List real
  mTriangleMinCoordsY : List real
  mTriangleMinCoordsZ : List real
  mTriangleMaxCoordsX : List real
  mTriangleMaxCoordsY : List real
  mTriangleMaxCoordsZ : List real
  deriving DecidableEq

/-- Body of the loop of `Data::init_triangles` for one value of `k`: the six
assignments, in source order. -/
def Data.init_triangles_body (d : Data) (k : Nat) : Data :=
  match d.mTriangles[k]? with
  | none => d
  | some t =>
    { d with
      mTriangleMinCoordsX := d.mTriangleMinCoordsX.set k (t.get_min_coord 0)
      mTriangleMinCoordsY := d.mTriangleMinCoordsY.set k (t.get_min_coord 1)
      mTriangleMinCoordsZ := d.mTriangleMinCoordsZ.set k (t.get_min_coord 2)
      mTriangleMaxCoordsX := d.mTriangleMaxCoordsX.set k (t.get_max_coord 0)
      mTriangleMaxCoordsY := d.mTriangleMaxCoordsY.set k (t.get_max_coord 1)
      mTriangleMaxCoordsZ := d.mTriangleMaxCoordsZ.set k (t.get_max_coord 2) }

/-- Embeds `Data::init_triangles`: `for ( uint k = 0; k < mNumberOfTriangles; ++k )`. -/
def Data.init_triangles (d : Data) : Data :=
  (List.range d.mNumberOfTriangles).foldl Data.init_triangles_body d

/-- Embeds `Data::Data( Object & aObject )`: the member initialisers (six columns of
`mNumberOfTriangles` rows) followed by `init_triangles`.  `aTriangles` is
`aObject.get_triangles()`. -/
def Data.construct (aTriangles : List Triangle) : Data :=
  Data.init_triangles
    { mTriangles := aTriangles
      mNumberOfTriangles := aTriangles.length
      mTriangleMinCoordsX := List.replicate aTriangles.length 0
      mTriangleMinCoordsY := List.replicate aTriangles.length 0
      mTriangleMinCoordsZ := List.replicate aTriangles.length 0
      mTriangleMaxCoordsX := List.replicate aTriangles.length 0
      mTriangleMaxCoordsY := List.replicate aTriangles.length 0
      mTriangleMaxCoordsZ := List.replicate aTriangles.length 0 }

/-- The stored minimum column of axis `a`. -/
def Data.mTriangleMinCoords (d : Data) (a : Fin 3) : List real :=
  match a with
  | 0 => d.mTriangleMinCoordsX
  | 1 => d.mTriangleMinCoordsY
  | 2 => d.mTriangleMinCoordsZ

/-- The stored maximum column of axis `a`. -/
def Data.mTriangleMaxCoords (d : Data) (a : Fin 3) : List real :=
  match a with
  | 0 => d.mTriangleMaxCoordsX
  | 1 => d.mTriangleMaxCoordsY
  | 2 => d.mTriangleMaxCoordsZ

/-- Two sample triangles for evaluating the construction of `Data`: the second
has the vertices (2, -1, 5), (-3, 4, 1) and (1, 1, 7). -/
def Data.sample_triangles : List Triangle :=
  [⟨⟨0, 0, 0⟩, ⟨1, 0, 0⟩, ⟨0, 1, 0⟩⟩, ⟨⟨2, -1, 5⟩, ⟨-3, 4, 1⟩, ⟨1, 1, 7⟩⟩]

/-! ## Configuration of the SDF core (`cl_SDF_Core.hpp`) -/

/-- The configuration members of `Core`.  `mMesh`, `mData` and `mVerbose` are
not touched by the setters below. -/
structure Core where
  mCandidateSearchDepth : Nat
  mCandidateSearchDepthEpsilon : real
  deriving DecidableEq

/-- A newly constructed `Core`: the default member initialisers
`mCandidateSearchDepth = 1` and `mCandidateSearchDepthEpsilon = 0.01`. -/
def Core.construct : Core :=
  { mCandidateSearchDepth := 1
    mCandidateSearchDepthEpsilon := 1 / 100 }

/-- Modelled from the spec: `Core::sweep` is only declared in `cl_SDF_Core.hpp`;
its body and the mesh, vertex and triangle classes it works on are not among
the sources.  This is what the sweep of one query point reads.  Primitives are
numbered `0 .. mNumberOfTriangles - 1` (the full primitive set); `distance i`
is the exact closest-point distance from the query point to primitive `i`;
`candidates 0` is the candidate set already computed and `candidates (r + 1)`
the primitives that the `r + 1`-st expansion of the search ring adds;
`conclusive best r` is the termination test after ring `r`: the minimum
distance found is provably at most the distance to the boundary of the
unsearched region (it depends on the configured epsilon). -/
structure Sweep_Point where
  mNumberOfTriangles : Nat
  distance : Nat → real
  candidates : Nat → List Nat
  conclusive : Option real → Nat → Bool

/-- Modelled from the spec: the unsigned distance of a query point is
initialised to plus infinity (`none`) and lowered to the exact distance of
every candidate primitive that is nearer. -/
def Sweep_Point.scan (p : Sweep_Point) (best : Option real) (cands : List Nat) :
    Option real :=
  cands.foldl
    (fun b i =>
      match b with
      | none => some (p.distance i)
      | some v => some (min v (p.distance i)))
    best

/-- Modelled from the spec: scan ring `r`; stop when the termination test
succeeds or when the remaining number of expansions is exhausted (the best
distance found so far is accepted), otherwise expand to ring `r + 1` and
re-scan.  Returns the number of rings scanned and the recorded distance. -/
def Sweep_Point.sweep_rings (p : Sweep_Point) :
    Nat → Nat → Option real → Nat × Option real
  | 0, r, best => (r + 1, p.scan best (p.candidates r))
  | n + 1, r, best =>
    if p.conclusive (p.scan best (p.candidates r)) r then
      (r + 1, p.scan best (p.candidates r))
    else
      p.sweep_rings n (r + 1) (p.scan best (p.candidates r))

/-- Modelled from the spec: a query point for which the rings held no candidate
at all (far outside the bounding box of all primitives) gets a finite distance
from the fallback expansion of the sweep, which takes the search to the whole
primitive set. -/
def Sweep_Point.fallback (p : Sweep_Point) (best : Option real) : Option real :=
  match best with
  | none => p.scan none (List.range p.mNumberOfTriangles)
  | some v => some v

/-- Modelled from the spec: the sweep of one query point with the configured
candidate search depth, the number of expansion rings attempted before a
best-effort result is accepted, followed by the fallback expansion.  Returns
the number of rings scanned and the recorded distance. -/
def Sweep_Point.sweep (p : Sweep_Point) (aCandidateSearchDepth : Nat) :
    Nat × Option real :=
  ((p.sweep_rings aCandidateSearchDepth 0 none).1,
    p.fallback (p.sweep_rings aCandidateSearchDepth 0 none).2)

/-- Modelled from the spec: `Core::sweep` runs the sweep for every query point
of the mesh with the depth configured in the core. -/
def Core.sweep (c : Core) (aPoints : List Sweep_Point) : List (Nat × Option real) :=
  aPoints.map (fun p => p.sweep c.mCandidateSearchDepth)

/-- A recorded unsigned distance (`none` is plus infinity) is at most `x`. -/
def udf_le (d : Option real) (x : real) : Prop :=
  match d with
  | none => False
  | some v => v ≤ x

/-- An example query point for evaluating the sweep: triangle 0 at distance 2 in
the initial candidate set, triangle 1 at distance 1 in the first expansion
ring, and a termination test that never succeeds. -/
def Sweep_Point.two_ring_example : Sweep_Point :=
  { mNumberOfTriangles := 2
    distance := fun i => if i = 0 then 2 else 1
    candidates := fun r => if r = 0 then [0] else if r = 1 then [1] else []
    conclusive := fun _ _ => false }

instance udf_le.decidable (d : Option real) (x : real) : Decidable (udf_le d x) :=
  match d with
  | none => isFalse (fun h => h)
  | some v => inferInstanceAs (Decidable (v ≤ x))

/-- The candidates of the rings `0 .. n - 1`, in the order in which the sweep
scans them. -/
def Sweep_Point.scanned (p : Sweep_Point) : Nat → List Nat
  | 0 => []
  | n + 1 => p.scanned n ++ p.candidates n

/-- Modelled from the spec: the termination test is sound when it succeeds after
ring `r` only if the minimum found is at most the distance to every primitive
of the unsearched region, the primitives of the full set that are in none of
the rings `0 .. r`. -/
def Sweep_Point.sound (p : Sweep_Point) : Prop :=
  ∀ (best : Option real) (r : Nat), p.conclusive best r = true →
    ∀ i < p.mNumberOfTriangles, i ∉ p.scanned (r + 1) → udf_le best (p.distance i)

/-- An example query point for the exhaustion of the search depth: triangle 0
at distance 2 in the initial candidate set, triangle 1 at distance 1 in the
second expansion ring, and a termination test that never succeeds. -/
def Sweep_Point.depth_exhausted_example : Sweep_Point :=
  { mNumberOfTriangles := 2
    distance := fun i => if i = 0 then 2 else 1
    candidates := fun r => if r = 0 then [0] else if r = 2 then [1] else []
    conclusive := fun _ _ => false }

/-- An example query point whose sweep ends by the termination test: triangles
0, 1 and 2 at the distances 1, 5 and 7, one per ring, and a test that compares
the minimum found with the distance 3, 6 or 100 to the boundary of the rings
searched. -/
def Sweep_Point.test_stop_example : Sweep_Point :=
  { mNumberOfTriangles := 3
    distance := fun i => if i = 0 then 1 else if i = 1 then 5 else 7
    candidates := fun r => if r < 3 then [r] else []
    conclusive := fun best r =>
      match best with
      | none => false
      | some v => decide (v ≤ (if r = 0 then 3 else if r = 1 then 6 else 100)) }

/-! ## Sign-consistency flood fill (`Core::force_unsure_nodes_outside`) -/

/-- The sign attached to a query point. -/
inductive Sign where
  | inside
  | outside
  | unsure
  deriving DecidableEq

/-- Modelled from the spec: the number of points of the adjacency list `adj`
that carry the sign `s`. -/
def count_neighbours (signs : List Sign) (adj : List Nat) (s : Sign) : Nat :=
  (adj.filter (fun j => signs[j]? = some s)).length

/-- Modelled from the spec: an unsure point adjacent to at least one
confidently signed point inherits the sign of its neighbours, by majority vote
when they disagree; the vote is biased toward outside.  A confident point
keeps its sign. -/
def propagate_point (aNeighbours : Nat → List Nat) (signs : List Sign) (k : Nat)
    (s : Sign) : Sign :=
  match s with
  | .unsure =>
    if count_neighbours signs (aNeighbours k) .inside = 0
        ∧ count_neighbours signs (aNeighbours k) .outside = 0 then
      .unsure
    else if count_neighbours signs (aNeighbours k) .outside
        < count_neighbours signs (aNeighbours k) .inside then
      .inside
    else
      .outside
  | s => s

/-- Modelled from the spec: one propagation round over all query points. -/
def propagate (aNeighbours : Nat → List Nat) (signs : List Sign) : List Sign :=
  List.zipWith (propagate_point aNeighbours signs) (List.range signs.length) signs

/-- Modelled from the spec: propagation is iterated to a fixed point (no more
changes) or for a bounded number of rounds. -/
def flood_fill (aNeighbours : Nat → List Nat) : Nat → List Sign → List Sign
  | 0, signs => signs
  | n + 1, signs =>
    if propagate aNeighbours signs = signs then signs
    else flood_fill aNeighbours n (propagate aNeighbours signs)

/-- Modelled from the spec: any point still unsure is forced to outside. -/
def force_outside (signs : List Sign) : List Sign :=
  signs.map (fun s =>
    match s with
    | .unsure => .outside
    | s => s)

/-- Modelled from the spec: `Core::force_unsure_nodes_outside` is only declared
in `cl_SDF_Core.hpp` ("performs a floodfill in order to fix unsure nodes"); its
body is not among the sources.  The pass is the bounded propagation followed by
forcing what is still unsure to outside.  `aNeighbours` is the adjacency of
the query points in the mesh. -/
def Core.force_unsure_nodes_outside (aNeighbours : Nat → List Nat)
    (aMaxIterations : Nat) (signs : List Sign) : List Sign :=
  force_outside (flood_fill aNeighbours aMaxIterations signs)

end sdf

namespace ge

/-! ## Interpolation PDV host (`cl_GEN_Interpolation_Pdv_Host.cpp`) -/

/-- The `Property` object behind a non-null `std::shared_ptr< Property >`. -/
structure Property where
  handle : Nat
  deriving DecidableEq

/-- The two classes of PDV the host makes: `Pdv_Value` and `Pdv_Property`. -/
inductive Pdv_Kind where
  | Pdv_Value (aPdvVal : real)
  | Pdv_Property (aPropertyPointer : Property)
  deriving DecidableEq

/-- A PDV object: its class with the constructor argument, and the members
`mId` (read by `get_id`, written by `set_id`) and `mIsActive`. -/
structure Pdv where
  kind : Pdv_Kind
  mId : Int
  mIsActive : Bool
  deriving DecidableEq

/-- A `Matrix< T >` as far as the host handles one: its numbers of rows and
columns and its entries. -/
structure Matrix (α : Type) where
  n_rows : Nat
  n_cols : Nat
  mMatrix : List α
  deriving DecidableEq

/-- The result of the constructor call `Matrix< T >( 0, 0 )`: no rows, no columns,
no entries. -/
def Matrix.empty (α : Type) : Matrix α :=
  { n_rows := 0, n_cols := 0, mMatrix := [] }

/-- The class `Pdv` is declared in a header that is not among the sources; what
the host relies on is a parameter: the id and the active flag of a newly made
PDV, and the three evaluations of a PDV at a node. -/
structure Pdv_Class where
  mId : Int
  mIsActive : Bool
  get_value : Pdv → Int → List real → real
  get_sensitivities : Pdv → Int → List real → Matrix real
  get_determining_adv_ids : Pdv → Int → List real → Matrix Int

/-- The result of `std::make_shared< Pdv_Value >( aPdvVal )`. -/
def Pdv_Class.make_Pdv_Value (c : Pdv_Class) (aPdvVal : real) : Pdv :=
  { kind := .Pdv_Value aPdvVal, mId := c.mId, mIsActive := c.mIsActive }

/-- The result of `std::make_shared< Pdv_Property >( aPropertyPointer )`. -/
def Pdv_Class.make_Pdv_Property (c : Pdv_Class) (aPropertyPointer : Property) : Pdv :=
  { kind := .Pdv_Property aPropertyPointer, mId := c.mId, mIsActive := c.mIsActive }

/-- Embeds `Pdv::set_id`. -/
def Pdv.set_id (p : Pdv) (aId : Int) : Pdv :=
  { p with mId := aId }

/-- Embeds `Pdv::get_id`. -/
def Pdv.get_id (p : Pdv) : Int :=
  p.mId

/-- What the host reads of its `Pdv_Host_Manager` (declared in a header that is
not among the sources): `get_pdv_type_map()` and `get_max_num_pdvs()`. -/
structure Pdv_Host_Manager where
  get_pdv_type_map : List Int
  get_max_num_pdvs : Nat
  deriving DecidableEq

/-- A value of the enumeration `PDV_Type`, as the integer that
`static_cast< sint >( aPDVType )` gives. -/
abbrev PDV_Type := Nat

/-- The members of `Interpolation_Pdv_Host`. -/
structure Interpolation_Pdv_Host where
  mPdvHostManager : Pdv_Host_Manager
  mNodeIndex : Int
  mNodeId : Int
  mNodeOwner : Int
  mCoordinates : List real
  mPDVs : List (Option Pdv)
  deriving DecidableEq

/-- The ways a call on the host aborts. -/
inductive Host_Error where
  /-- Message `PdvHostManager does not exist`. -/
  | manager_does_not_exist
  /-- Message `property pointer is nullptr`. -/
  | property_is_nullptr
  /-- Message `PDV type does not exist at node with index`. -/
  | pdv_type_does_not_exist
  /-- Message `PDV does not exist at node with index`. -/
  | pdv_does_not_exist
  /-- A method is called through a null PDV pointer -/
  | null_dereference
  /-- A cell or matrix is indexed outside its bounds -/
  | out_of_bounds
  deriving DecidableEq

/-- Reading `aCell( aIndex )` for a signed index. -/
def cell_get {α : Type} (aCell : List α) (aIndex : Int) : Except Host_Error α :=
  if 0 ≤ aIndex then
    match aCell[aIndex.toNat]? with
    | some x => .ok x
    | none => .error .out_of_bounds
  else .error .out_of_bounds

/-- The lookup `tPDVTypeMap( static_cast< sint >( aPDVType ) )` followed by the
check `MORIS_ASSERT( tPDVIndex != -1, ... )` that every type-keyed method
starts with. -/
def Interpolation_Pdv_Host.pdv_index (h : Interpolation_Pdv_Host) (aPDVType : PDV_Type) :
    Except Host_Error Int :=
  match h.mPdvHostManager.get_pdv_type_map[aPDVType]? with
  | none => .error .out_of_bounds
  | some tPDVIndex =>
    if tPDVIndex = -1 then .error .pdv_type_does_not_exist else .ok tPDVIndex

/-- The constructor `Interpolation_Pdv_Host::Interpolation_Pdv_Host`. -/
def Interpolation_Pdv_Host.construct (aPdvHostManager : Option Pdv_Host_Manager)
    (aNodeIndex aNodeId aNodeOwner : Int) (aCoordinates : List real) :
    Except Host_Error Interpolation_Pdv_Host :=
  match aPdvHostManager with
  | none => .error .manager_does_not_exist
  | some m =>
    .ok
      { mPdvHostManager := m
        mNodeIndex := aNodeIndex
        mNodeId := aNodeId
        mNodeOwner := aNodeOwner
        mCoordinates := aCoordinates
        mPDVs := List.replicate m.get_max_num_pdvs none }

/-- Embeds `Interpolation_Pdv_Host::get_num_pdvs`. -/
def Interpolation_Pdv_Host.get_num_pdvs (h : Interpolation_Pdv_Host) : Nat :=
  h.mPDVs.length

/-- Embeds `Interpolation_Pdv_Host::create_pdv( PDV_Type aPDVType, real aPdvVal )`. -/
def Interpolation_Pdv_Host.create_pdv_value (c : Pdv_Class) (h : Interpolation_Pdv_Host)
    (aPDVType : PDV_Type) (aPdvVal : real) : Except Host_Error Interpolation_Pdv_Host :=
  match h.pdv_index aPDVType with
  | .error e => .error e
  | .ok tPDVIndex =>
    match cell_get h.mPDVs tPDVIndex with
    | .error e => .error e
    | .ok none =>
      .ok { h with mPDVs := h.mPDVs.set tPDVIndex.toNat (some (c.make_Pdv_Value aPdvVal)) }
    | .ok (some _) => .ok h

/-- Embeds `Interpolation_Pdv_Host::set_pdv_id`. -/
def Interpolation_Pdv_Host.set_pdv_id (h : Interpolation_Pdv_Host)
    (aPDVType : PDV_Type) (aCounterId : Int) : Except Host_Error Interpolation_Pdv_Host :=
  match h.pdv_index aPDVType with
  | .error e => .error e
  | .ok tPDVIndex =>
    match cell_get h.mPDVs tPDVIndex with
    | .error e => .error e
    | .ok none => .error .null_dereference
    | .ok (some tPdv) =>
      .ok { h with mPDVs := h.mPDVs.set tPDVIndex.toNat (some (tPdv.set_id aCounterId)) }

/-- Embeds `Interpolation_Pdv_Host::get_pdv_id( uint aPDVIndex )`. -/
def Interpolation_Pdv_Host.get_pdv_id (h : Interpolation_Pdv_Host) (aPDVIndex : Nat) :
    Except Host_Error Int :=
  match h.mPDVs[aPDVIndex]? with
  | none => .error .out_of_bounds
  | some (some tPdv) => .ok tPdv.get_id
  | some none => .ok (-1)

/-- Embeds `Interpolation_Pdv_Host::get_pdv_id( PDV_Type aPDVType )`; the signed index
is passed on to the overload that takes a `uint`. -/
def Interpolation_Pdv_Host.get_pdv_id_type (h : Interpolation_Pdv_Host)
    (aPDVType : PDV_Type) : Except Host_Error Int :=
  match h.pdv_index aPDVType with
  | .error e => .error e
  | .ok tPDVIndex =>
    if 0 ≤ tPDVIndex then h.get_pdv_id tPDVIndex.toNat else .error .out_of_bounds

/-- Embeds `Interpolation_Pdv_Host::create_pdv( PDV_Type aPDVType,
std::shared_ptr< Property > aPropertyPointer )`. -/
def Interpolation_Pdv_Host.create_pdv_property (c : Pdv_Class) (h : Interpolation_Pdv_Host)
    (aPDVType : PDV_Type) (aPropertyPointer : Option Property) :
    Except Host_Error Interpolation_Pdv_Host :=
  match aPropertyPointer with
  | none => .error .property_is_nullptr
  | some tProperty =>
    match h.pdv_index aPDVType with
    | .error e => .error e
    | .ok tPDVIndex =>
      match cell_get h.mPDVs tPDVIndex with
      | .error e => .error e
      | .ok _ =>
        .ok { h with
              mPDVs := h.mPDVs.set tPDVIndex.toNat (some (c.make_Pdv_Property tProperty)) }

/-- Embeds `Interpolation_Pdv_Host::is_active_type`. -/
def Interpolation_Pdv_Host.is_active_type (h : Interpolation_Pdv_Host)
    (aPDVType : PDV_Type) : Except Host_Error Bool :=
  match h.pdv_index aPDVType with
  | .error e => .error e
  | .ok tPDVIndex =>
    match cell_get h.mPDVs tPDVIndex with
    | .error e => .error e
    | .ok none => .error .pdv_does_not_exist
    | .ok (some tPdv) => .ok tPdv.mIsActive

/-- Embeds `Interpolation_Pdv_Host::set_global_index_for_pdv_type`. -/
def Interpolation_Pdv_Host.set_global_index_for_pdv_type (h : Interpolation_Pdv_Host)
    (aPDVType : PDV_Type) (aId : Int) : Except Host_Error Interpolation_Pdv_Host :=
  match h.pdv_index aPDVType with
  | .error e => .error e
  | .ok tPDVIndex =>
    match cell_get h.mPDVs tPDVIndex with
    | .error e => .error e
    | .ok none => .error .pdv_does_not_exist
    | .ok (some tPdv) =>
      .ok { h with mPDVs := h.mPDVs.set tPDVIndex.toNat (some (tPdv.set_id aId)) }

/-- The conversion of a signed `moris_id` to the unsigned `uint` of
`aUintBits` bits (the width is fixed in `typedefs.hpp`, not among the
sources). -/
def uint_of_moris_id (aUintBits : Nat) (aId : Int) : Nat :=
  (aId % (2 : Int) ^ aUintBits).toNat

/-- Embeds `Interpolation_Pdv_Host::get_global_index_for_pdv_type`; the id is returned
as a `uint`. -/
def Interpolation_Pdv_Host.get_global_index_for_pdv_type (aUintBits : Nat)
    (h : Interpolation_Pdv_Host) (aPDVType : PDV_Type) : Except Host_Error Nat :=
  match h.pdv_index aPDVType with
  | .error e => .error e
  | .ok tPDVIndex =>
    match cell_get h.mPDVs tPDVIndex with
    | .error e => .error e
    | .ok none => .error .pdv_does_not_exist
    | .ok (some tPdv) => .ok (uint_of_moris_id aUintBits tPdv.get_id)

/-- Loop of `get_all_global_indices`: `tGlobPdvId( tCounter++ ) = tPdv->get_id()`
for every PDV that is not null.  The state is the column and the counter. -/
def get_all_global_indices_loop (aState : List Int × Nat) (tPdv : Option Pdv) :
    List Int × Nat :=
  match tPdv with
  | some p => (aState.1.set aState.2 p.get_id, aState.2 + 1)
  | none => aState

/-- Embeds `Interpolation_Pdv_Host::get_all_global_indices`: a column of
`mPDVs.size()` rows is filled from the top by the loop and then resized to the
counter. -/
def Interpolation_Pdv_Host.get_all_global_indices (h : Interpolation_Pdv_Host) : List Int :=
  let tResult := h.mPDVs.foldl get_all_global_indices_loop
    (List.replicate h.mPDVs.length 0, 0)
  tResult.1.take tResult.2

/-- Embeds `Interpolation_Pdv_Host::get_pdv_value`. -/
def Interpolation_Pdv_Host.get_pdv_value (c : Pdv_Class) (h : Interpolation_Pdv_Host)
    (aPDVType : PDV_Type) : Except Host_Error real :=
  match h.pdv_index aPDVType with
  | .error e => .error e
  | .ok tPDVIndex =>
    match cell_get h.mPDVs tPDVIndex with
    | .error e => .error e
    | .ok none => .error .pdv_does_not_exist
    | .ok (some tPdv) => .ok (c.get_value tPdv h.mNodeIndex h.mCoordinates)

/-- Embeds `Interpolation_Pdv_Host::get_pdv_exists`. -/
def Interpolation_Pdv_Host.get_pdv_exists (h : Interpolation_Pdv_Host)
    (aPDVType : PDV_Type) : Except Host_Error Bool :=
  match h.pdv_index aPDVType with
  | .error e => .error e
  | .ok tPDVIndex =>
    match cell_get h.mPDVs tPDVIndex with
    | .error e => .error e
    | .ok none => .ok false
    | .ok (some _) => .ok true

/-- Embeds `Interpolation_Pdv_Host::get_sensitivities`. -/
def Interpolation_Pdv_Host.get_sensitivities (c : Pdv_Class) (h : Interpolation_Pdv_Host)
    (aPDVIndex : Nat) : Except Host_Error (Matrix real) :=
  match h.mPDVs[aPDVIndex]? with
  | none => .error .out_of_bounds
  | some none => .ok (Matrix.empty real)
  | some (some tPdv) =>
    if tPdv.mIsActive then .ok (c.get_sensitivities tPdv h.mNodeIndex h.mCoordinates)
    else .ok (Matrix.empty real)

/-- Embeds `Interpolation_Pdv_Host::get_determining_adv_ids`. -/
def Interpolation_Pdv_Host.get_determining_adv_ids (c : Pdv_Class)
    (h : Interpolation_Pdv_Host) (aPDVIndex : Nat) : Except Host_Error (Matrix Int) :=
  match h.mPDVs[aPDVIndex]? with
  | none => .error .out_of_bounds
  | some none => .ok (Matrix.empty Int)
  | some (some tPdv) =>
    if tPdv.mIsActive then .ok (c.get_determining_adv_ids tPdv h.mNodeIndex h.mCoordinates)
    else .ok (Matrix.empty Int)

/-- A sample of the parameters of the class `Pdv`, for evaluating the host on
concrete inputs: a new PDV has id -1 and is active, its value is 0, its
sensitivities are the row of the coordinates and its determining ADV ids are
the row of its id and the node index. -/
def Pdv_Class.sample : Pdv_Class :=
  { mId := -1
    mIsActive := true
    get_value := fun _ _ _ => 0
    get_sensitivities := fun _ _ aCoordinates =>
      { n_rows := 1, n_cols := aCoordinates.length, mMatrix := aCoordinates }
    get_determining_adv_ids := fun tPdv aNodeIndex _ =>
      { n_rows := 1, n_cols := 2, mMatrix := [tPdv.mId, aNodeIndex] } }

/-- A sample host for evaluating the methods on concrete inputs: two slots, PDV
type 0 mapped to slot 1, PDV type 1 not mapped, slot 0 empty and slot 1 holding
a value PDV with id 42. -/
def Interpolation_Pdv_Host.sample : Interpolation_Pdv_Host :=
  { mPdvHostManager := { get_pdv_type_map := [1, -1], get_max_num_pdvs := 2 }
    mNodeIndex := 7
    mNodeId := 70
    mNodeOwner := 0
    mCoordinates := [1, 2]
    mPDVs := [none, some { kind := .Pdv_Value 3, mId := 42, mIsActive := true }] }

/-! ## Plane geometry (`cl_GEN_Plane.hpp`) -/

/-- The member functions that `m_eval_field` of a `Plane` can point to. -/
inductive Plane_Eval_Field where
  | eval_field_2d
  | eval_field_3d
  deriving DecidableEq

/-- The member functions that `m_eval_sensitivity` of a `Plane` can point to. -/
inductive Plane_Eval_Sensitivity where
  | eval_sensitivity_2d
  | eval_sensitivity_3d
  deriving DecidableEq

/-- The members of `Plane` that the constructor from ADVs reads and writes:
the field variables inherited from `Field` and the two member-function
pointers, `nullptr` by their default initialisers. -/
structure Plane where
  mFieldVariables : List real
  m_eval_field : Option Plane_Eval_Field
  m_eval_sensitivity : Option Plane_Eval_Sensitivity
  deriving DecidableEq

/-- The way the constructor of a `Plane` aborts. -/
inductive Plane_Error where
  /-- Message `Incorrect number of parameters passed for construction of a GEN Plane.` -/
  | incorrect_number_of_parameters
  deriving DecidableEq

/-- Embeds the body of the constructor `Plane::Plane` from ADVs.  The base-class
constructor `Field( aADVs, ... )` is not among the sources; `aFieldVariables`
is `mFieldVariables` as it leaves them. -/
def Plane.construct (aFieldVariables : List real) : Except Plane_Error Plane :=
  if aFieldVariables.length = 4 then
    .ok { mFieldVariables := aFieldVariables
          m_eval_field := some .eval_field_2d
          m_eval_sensitivity := some .eval_sensitivity_2d }
  else if aFieldVariables.length = 6 then
    .ok { mFieldVariables := aFieldVariables
          m_eval_field := some .eval_field_3d
          m_eval_sensitivity := some .eval_sensitivity_3d }
  else
    .error .incorrect_number_of_parameters

end ge
end moris

namespace moris
namespace sdf

/-- One pass of the loop body writes row `k` of both columns of every axis and
leaves the triangles, the sizes and all other rows as they were. -/
theorem init_triangles_body_spec (d : Data) (k : Nat) (a : Fin 3) :
    (d.init_triangles_body k).mTriangles = d.mTriangles
    ∧ (d.init_triangles_body k).mNumberOfTriangles = d.mNumberOfTriangles
    ∧ ((d.init_triangles_body k).mTriangleMinCoords a).length = (d.mTriangleMinCoords a).length
    ∧ ((d.init_triangles_body k).mTriangleMaxCoords a).length = (d.mTriangleMaxCoords a).length
    ∧ (∀ j, j ≠ k → ((d.init_triangles_body k).mTriangleMinCoords a)[j]? = (d.mTriangleMinCoords a)[j]?)
    ∧ (∀ j, j ≠ k → ((d.init_triangles_body k).mTriangleMaxCoords a)[j]? = (d.mTriangleMaxCoords a)[j]?)
    ∧ (∀ t, d.mTriangles[k]? = some t → k < (d.mTriangleMinCoords a).length →
        ((d.init_triangles_body k).mTriangleMinCoords a)[k]? = some (t.get_min_coord a))
    ∧ (∀ t, d.mTriangles[k]? = some t → k < (d.mTriangleMaxCoords a).length →
        ((d.init_triangles_body k).mTriangleMaxCoords a)[k]? = some (t.get_max_coord a)) := by
  unfold Data.init_triangles_body
  cases ht : d.mTriangles[k]? with
  | none => simp
  | some t =>
    fin_cases a <;>
      simp [Data.mTriangleMinCoords, Data.mTriangleMaxCoords, List.getElem?_set] <;>
      simp_all [Ne.symm]


/-- Loop invariant of `init_triangles`: after `n` passes the rows below `n` hold
the bounds of their triangles. -/
theorem init_triangles_fold_spec (a : Fin 3) (n : Nat) (d : Data) :
    ((List.range n).foldl Data.init_triangles_body d).mTriangles = d.mTriangles
    ∧ ((List.range n).foldl Data.init_triangles_body d).mNumberOfTriangles
        = d.mNumberOfTriangles
    ∧ (((List.range n).foldl Data.init_triangles_body d).mTriangleMinCoords a).length
        = (d.mTriangleMinCoords a).length
    ∧ (((List.range n).foldl Data.init_triangles_body d).mTriangleMaxCoords a).length
        = (d.mTriangleMaxCoords a).length
    ∧ (∀ k t, k < n → d.mTriangles[k]? = some t → k < (d.mTriangleMinCoords a).length →
        (((List.range n).foldl Data.init_triangles_body d).mTriangleMinCoords a)[k]?
          = some (t.get_min_coord a))
    ∧ (∀ k t, k < n → d.mTriangles[k]? = some t → k < (d.mTriangleMaxCoords a).length →
        (((List.range n).foldl Data.init_triangles_body d).mTriangleMaxCoords a)[k]?
          = some (t.get_max_coord a)) := by
  induction n with
  | zero => simp
  | succ n ih =>
    rw [List.range_succ, List.foldl_append]
    simp only [List.foldl_cons, List.foldl_nil]
    obtain ⟨hT, hN, hlmin, hlmax, hmin, hmax⟩ := ih
    obtain ⟨bT, bN, blmin, blmax, bomin, bomax, bmin, bmax⟩ :=
      init_triangles_body_spec ((List.range n).foldl Data.init_triangles_body d) n a
    refine ⟨bT.trans hT, bN.trans hN, blmin.trans hlmin, blmax.trans hlmax, ?_, ?_⟩
    · intro k t hk ht hlen
      rcases Nat.lt_succ_iff_lt_or_eq.mp hk with hlt | rfl
      · rw [bomin k (Nat.ne_of_lt hlt)]
        exact hmin k t hlt ht hlen
      · exact bmin t (hT ▸ ht) (hlmin ▸ hlen)
    · intro k t hk ht hlen
      rcases Nat.lt_succ_iff_lt_or_eq.mp hk with hlt | rfl
      · rw [bomax k (Nat.ne_of_lt hlt)]
        exact hmax k t hlt ht hlen
      · exact bmax t (hT ▸ ht) (hlmax ▸ hlen)

/-- The minimum bounding coordinate is below every vertex of the triangle. -/
theorem get_min_coord_le (t : Triangle) (a : Fin 3) (v : Triangle_Vertex)
    (hv : v ∈ t.vertices) : t.get_min_coord a ≤ v.get_coord a := by
  simp only [Triangle.vertices, List.mem_cons, List.mem_singleton, List.not_mem_nil,
    or_false] at hv
  unfold Triangle.get_min_coord
  rcases hv with rfl | rfl | rfl
  · exact le_trans (min_le_left _ _) (min_le_left _ _)
  · exact le_trans (min_le_left _ _) (min_le_right _ _)
  · exact min_le_right _ _

/-- The maximum bounding coordinate is above every vertex of the triangle. -/
theorem le_get_max_coord (t : Triangle) (a : Fin 3) (v : Triangle_Vertex)
    (hv : v ∈ t.vertices) : v.get_coord a ≤ t.get_max_coord a := by
  simp only [Triangle.vertices, List.mem_cons, List.mem_singleton, List.not_mem_nil,
    or_false] at hv
  unfold Triangle.get_max_coord
  rcases hv with rfl | rfl | rfl
  · exact le_trans (le_max_left _ _) (le_max_left _ _)
  · exact le_trans (le_max_right _ _) (le_max_left _ _)
  · exact le_max_right _ _

/-- The minimum bounding coordinate is the coordinate of one of the vertices. -/
theorem get_min_coord_attained (t : Triangle) (a : Fin 3) :
    ∃ v ∈ t.vertices, v.get_coord a = t.get_min_coord a := by
  unfold Triangle.get_min_coord Triangle.vertices
  rcases min_choice (min (t.v0.get_coord a) (t.v1.get_coord a)) (t.v2.get_coord a) with h | h
  · rcases min_choice (t.v0.get_coord a) (t.v1.get_coord a) with h0 | h1
    · exact ⟨t.v0, by simp, by rw [h, h0]⟩
    · exact ⟨t.v1, by simp, by rw [h, h1]⟩
  · exact ⟨t.v2, by simp, by rw [h]⟩

/-- The maximum bounding coordinate is the coordinate of one of the vertices. -/
theorem get_max_coord_attained (t : Triangle) (a : Fin 3) :
    ∃ v ∈ t.vertices, v.get_coord a = t.get_max_coord a := by
  unfold Triangle.get_max_coord Triangle.vertices
  rcases max_choice (max (t.v0.get_coord a) (t.v1.get_coord a)) (t.v2.get_coord a) with h | h
  · rcases max_choice (t.v0.get_coord a) (t.v1.get_coord a) with h0 | h1
    · exact ⟨t.v0, by simp, by rw [h, h0]⟩
    · exact ⟨t.v1, by simp, by rw [h, h1]⟩
  · exact ⟨t.v2, by simp, by rw [h]⟩

/-- C1: after `Data` is constructed from the triangles `aTriangles` of the
object, it holds these triangles and their number, every column has one row per
triangle, and for every triangle index `k` below the number of triangles and
every axis `a`, rows `k` of the minimum and maximum columns of axis `a` hold
`get_min_coord a` and `get_max_coord a` of triangle `k` of the object: the
coordinate along `a` of every vertex of that triangle lies between the two
stored values, and each stored value is the coordinate of one of its vertices. -/
theorem Data_construct_bounding_interval (aTriangles : List Triangle) (k : Nat) (a : Fin 3)
    (hk : k < aTriangles.length) :
    (Data.construct aTriangles).mTriangles = aTriangles
    ∧ (Data.construct aTriangles).mNumberOfTriangles = aTriangles.length
    ∧ ((Data.construct aTriangles).mTriangleMinCoords a).length = aTriangles.length
    ∧ ((Data.construct aTriangles).mTriangleMaxCoords a).length = aTriangles.length
    ∧ ∃ lo hi : real,
        ((Data.construct aTriangles).mTriangleMinCoords a)[k]? = some lo
        ∧ ((Data.construct aTriangles).mTriangleMaxCoords a)[k]? = some hi
        ∧ lo = aTriangles[k].get_min_coord a
        ∧ hi = aTriangles[k].get_max_coord a
        ∧ (∀ v ∈ aTriangles[k].vertices, lo ≤ v.get_coord a ∧ v.get_coord a ≤ hi)
        ∧ (∃ v ∈ aTriangles[k].vertices, v.get_coord a = lo)
        ∧ (∃ v ∈ aTriangles[k].vertices, v.get_coord a = hi) := by
  unfold Data.construct Data.init_triangles
  simp only
  obtain ⟨hT, hN, hlmin, hlmax, hmin, hmax⟩ := init_triangles_fold_spec a aTriangles.length
    { mTriangles := aTriangles
      mNumberOfTriangles := aTriangles.length
      mTriangleMinCoordsX := List.replicate aTriangles.length 0
      mTriangleMinCoordsY := List.replicate aTriangles.length 0
      mTriangleMinCoordsZ := List.replicate aTriangles.length 0
      mTriangleMaxCoordsX := List.replicate aTriangles.length 0
      mTriangleMaxCoordsY := List.replicate aTriangles.length 0
      mTriangleMaxCoordsZ := List.replicate aTriangles.length 0 }
  have ht : aTriangles[k]? = some aTriangles[k] := List.getElem?_eq_getElem hk
  refine ⟨hT, hN, ?_, ?_, aTriangles[k].get_min_coord a, aTriangles[k].get_max_coord a,
    ?_, ?_, rfl, rfl, ?_, get_min_coord_attained _ a, get_max_coord_attained _ a⟩
  · rw [hlmin]
    fin_cases a <;> simp [Data.mTriangleMinCoords]
  · rw [hlmax]
    fin_cases a <;> simp [Data.mTriangleMaxCoords]
  · refine hmin k _ hk ht ?_
    fin_cases a <;> simp [Data.mTriangleMinCoords, hk]
  · refine hmax k _ hk ht ?_
    fin_cases a <;> simp [Data.mTriangleMaxCoords, hk]
  · intro v hv
    exact ⟨get_min_coord_le _ a v hv, le_get_max_coord _ a v hv⟩

/-- Instance of C1 for the second of the two sample triangles and the X axis:
its vertices have the X coordinates 2, -3 and 1, and the stored bounds are -3
and 2. -/
theorem Data_construct_bounding_interval_witness :
    1 < Data.sample_triangles.length
    ∧ (Data.construct Data.sample_triangles).mTriangles = Data.sample_triangles
    ∧ (Data.construct Data.sample_triangles).mNumberOfTriangles = 2
    ∧ ∃ lo hi : real,
        ((Data.construct Data.sample_triangles).mTriangleMinCoords 0)[1]? = some lo
        ∧ ((Data.construct Data.sample_triangles).mTriangleMaxCoords 0)[1]? = some hi
        ∧ lo = -3 ∧ hi = 2 :=
  ⟨by decide,
    (Data_construct_bounding_interval Data.sample_triangles 1 0 (by decide)).1,
    (Data_construct_bounding_interval Data.sample_triangles 1 0 (by decide)).2.1,
    (Data_construct_bounding_interval Data.sample_triangles 1 0 (by decide)).2.2.2.2.elim
      fun lo h => h.elim fun hi h =>
        ⟨lo, hi, h.1, h.2.1, h.2.2.1.trans (by decide), h.2.2.2.1.trans (by decide)⟩⟩

/-- The columns that construction stores for the two sample triangles. -/
theorem Data_construct_example :
    (Data.construct Data.sample_triangles).mTriangleMinCoordsX = [0, -3]
    ∧ (Data.construct Data.sample_triangles).mTriangleMinCoordsY = [0, -1]
    ∧ (Data.construct Data.sample_triangles).mTriangleMinCoordsZ = [0, 1]
    ∧ (Data.construct Data.sample_triangles).mTriangleMaxCoordsX = [1, 2]
    ∧ (Data.construct Data.sample_triangles).mTriangleMaxCoordsY = [1, 4]
    ∧ (Data.construct Data.sample_triangles).mTriangleMaxCoordsZ = [0, 7] := by
  decide

/-- C3: a newly constructed `Core` has candidate search depth 1 and candidate
search epsilon 1/100. -/
theorem Core_construct_defaults :
    Core.construct.mCandidateSearchDepth = 1
    ∧ Core.construct.mCandidateSearchDepthEpsilon = 1 / 100 :=
  ⟨rfl, rfl⟩

/-- Runs of the sweep.  The two-ring point scans two rings and records the
distance 1 found in the expansion ring; the point of the counterexample scans
two rings and keeps the distance 2; the test-stop point stops after its initial
candidate set with the distance 1 whatever the depth; a point without any
candidate gets the distance 1 from the fallback expansion. -/
theorem Sweep_Point_sweep_example :
    Sweep_Point.two_ring_example.sweep 1 = (2, some 1)
    ∧ Sweep_Point.depth_exhausted_example.sweep 1 = (2, some 2)
    ∧ Sweep_Point.depth_exhausted_example.sweep 2 = (3, some 1)
    ∧ Sweep_Point.test_stop_example.sweep 1 = (1, some 1)
    ∧ Sweep_Point.test_stop_example.sweep 5 = (1, some 1)
    ∧ Sweep_Point.sweep { Sweep_Point.two_ring_example with candidates := fun _ => [] } 1
        = (2, some 1) := by
  decide

/-- The termination test of the counterexample point never succeeds, so it is
sound: the counterexample fails by the exhaustion of the depth alone. -/
theorem Sweep_Point_depth_exhausted_example_sound :
    Sweep_Point.depth_exhausted_example.sound := by
  intro best r htest
  simp [Sweep_Point.depth_exhausted_example] at htest

/-- A propagation round keeps the number of query points. -/
theorem propagate_length (aNeighbours : Nat → List Nat) (signs : List Sign) :
    (propagate aNeighbours signs).length = signs.length := by
  simp [propagate]

/-- The iterated propagation keeps the number of query points. -/
theorem flood_fill_length (aNeighbours : Nat → List Nat) (n : Nat) (signs : List Sign) :
    (flood_fill aNeighbours n signs).length = signs.length := by
  induction n generalizing signs with
  | zero => rfl
  | succ n ih =>
    simp only [flood_fill]
    split
    · rfl
    · rw [ih, propagate_length]

/-- C5: after the flood-fill pass every query point still has a sign, no query
point is unsure, and every point that was still unsure when propagation ended
is outside. -/
theorem Core_force_unsure_nodes_outside_resolves (aNeighbours : Nat → List Nat)
    (aMaxIterations : Nat) (signs : List Sign) :
    (Core.force_unsure_nodes_outside aNeighbours aMaxIterations signs).length = signs.length
    ∧ (∀ s ∈ Core.force_unsure_nodes_outside aNeighbours aMaxIterations signs,
        s ≠ Sign.unsure)
    ∧ (∀ k : Nat, (flood_fill aNeighbours aMaxIterations signs)[k]? = some Sign.unsure →
        (Core.force_unsure_nodes_outside aNeighbours aMaxIterations signs)[k]?
          = some Sign.outside)
    ∧ (∀ (k : Nat) (s : Sign), (flood_fill aNeighbours aMaxIterations signs)[k]? = some s → s ≠ Sign.unsure →
        (Core.force_unsure_nodes_outside aNeighbours aMaxIterations signs)[k]? = some s) := by
  unfold Core.force_unsure_nodes_outside force_outside
  refine ⟨?_, ?_, ?_, ?_⟩
  · rw [List.length_map, flood_fill_length]
  · intro s hs
    obtain ⟨x, -, rfl⟩ := List.mem_map.mp hs
    cases x <;> simp
  · intro k hk
    simp [List.getElem?_map, hk]
  · intro k s hk hs
    cases s <;> simp_all [List.getElem?_map]

/-- A run of the flood fill: point 1 inherits inside from its neighbour 0, the
isolated point 2 stays unsure through propagation and is forced to outside. -/
theorem Core_force_unsure_nodes_outside_example :
    flood_fill (fun k => if k = 0 then [1] else if k = 1 then [0] else []) 5
        [Sign.inside, Sign.unsure, Sign.unsure, Sign.outside]
      = [Sign.inside, Sign.inside, Sign.unsure, Sign.outside]
    ∧ Core.force_unsure_nodes_outside
        (fun k => if k = 0 then [1] else if k = 1 then [0] else []) 5
        [Sign.inside, Sign.unsure, Sign.unsure, Sign.outside]
      = [Sign.inside, Sign.inside, Sign.outside, Sign.outside] := by
  decide

end sdf
end moris

namespace moris
namespace ge

/-- A type mapped to a slot index passes the type check. -/
theorem pdv_index_of_map (h : Interpolation_Pdv_Host) (aPDVType : PDV_Type) (i : Nat)
    (hmap : h.mPdvHostManager.get_pdv_type_map[aPDVType]? = some (i : Int)) :
    h.pdv_index aPDVType = .ok (i : Int) := by
  have hne : ¬ ((i : Int) = -1) := by omega
  simp [Interpolation_Pdv_Host.pdv_index, hmap, hne]

/-- A type mapped to -1 fails the type check. -/
theorem pdv_index_of_no_type (h : Interpolation_Pdv_Host) (aPDVType : PDV_Type)
    (hmap : h.mPdvHostManager.get_pdv_type_map[aPDVType]? = some (-1)) :
    h.pdv_index aPDVType = .error .pdv_type_does_not_exist := by
  simp [Interpolation_Pdv_Host.pdv_index, hmap]

/-- Reading a cell at an index that is in bounds. -/
theorem cell_get_natCast {α : Type} (aCell : List α) (i : Nat) (x : α)
    (hx : aCell[i]? = some x) : cell_get aCell (i : Int) = .ok x := by
  simp [cell_get, hx]

/-- C6: constructing a host with a null PDV host manager fails with the
manager error and yields no host; with a manager it succeeds and yields a host
that stores the given node index, id, owner and coordinates and has exactly
`get_max_num_pdvs()` PDV slots, each of them empty with `get_pdv_id(i) = -1`. -/
theorem Interpolation_Pdv_Host_construct_spec (aNodeIndex aNodeId aNodeOwner : Int)
    (aCoordinates : List real) :
    Interpolation_Pdv_Host.construct none aNodeIndex aNodeId aNodeOwner aCoordinates
      = .error .manager_does_not_exist
    ∧ ∀ m : Pdv_Host_Manager,
        ∃ h : Interpolation_Pdv_Host,
          Interpolation_Pdv_Host.construct (some m) aNodeIndex aNodeId aNodeOwner
              aCoordinates = .ok h
          ∧ h.mPdvHostManager = m
          ∧ h.mNodeIndex = aNodeIndex ∧ h.mNodeId = aNodeId ∧ h.mNodeOwner = aNodeOwner
          ∧ h.mCoordinates = aCoordinates
          ∧ h.get_num_pdvs = m.get_max_num_pdvs
          ∧ ∀ i : Nat, i < m.get_max_num_pdvs →
              h.mPDVs[i]? = some none ∧ h.get_pdv_id i = .ok (-1) := by
  refine ⟨rfl, fun m => ⟨_, rfl, rfl, rfl, rfl, rfl, rfl, ?_, ?_⟩⟩
  · simp [Interpolation_Pdv_Host.get_num_pdvs]
  · intro i hi
    have hslot : (List.replicate m.get_max_num_pdvs (none : Option Pdv))[i]? = some none := by
      rw [List.getElem?_eq_getElem (by simpa using hi)]
      simp
    exact ⟨hslot, by simp only [Interpolation_Pdv_Host.get_pdv_id, hslot]⟩

/-- C7: for a PDV type whose entry in the type map is -1, every type-keyed
method aborts and returns neither a result nor a changed host: with the type
check `PDV type does not exist`, except that `create_pdv` with a null property
pointer aborts on the property check that precedes the type check. -/
theorem Interpolation_Pdv_Host_type_check (c : Pdv_Class) (aUintBits : Nat)
    (h : Interpolation_Pdv_Host) (aPDVType : PDV_Type)
    (hmap : h.mPdvHostManager.get_pdv_type_map[aPDVType]? = some (-1)) :
    (∀ aPdvVal : real,
        h.create_pdv_value c aPDVType aPdvVal = .error .pdv_type_does_not_exist)
    ∧ (∀ aProperty : Property,
        h.create_pdv_property c aPDVType (some aProperty) = .error .pdv_type_does_not_exist)
    ∧ h.create_pdv_property c aPDVType none = .error .property_is_nullptr
    ∧ (∀ aCounterId : Int,
        h.set_pdv_id aPDVType aCounterId = .error .pdv_type_does_not_exist)
    ∧ h.get_pdv_id_type aPDVType = .error .pdv_type_does_not_exist
    ∧ h.is_active_type aPDVType = .error .pdv_type_does_not_exist
    ∧ (∀ aId : Int,
        h.set_global_index_for_pdv_type aPDVType aId = .error .pdv_type_does_not_exist)
    ∧ h.get_global_index_for_pdv_type aUintBits aPDVType = .error .pdv_type_does_not_exist
    ∧ h.get_pdv_value c aPDVType = .error .pdv_type_does_not_exist
    ∧ h.get_pdv_exists aPDVType = .error .pdv_type_does_not_exist := by
  have hidx := pdv_index_of_no_type h aPDVType hmap
  refine ⟨?_, ?_, rfl, ?_, ?_, ?_, ?_, ?_, ?_, ?_⟩
  · intro v; simp only [Interpolation_Pdv_Host.create_pdv_value, hidx]
  · intro p; simp only [Interpolation_Pdv_Host.create_pdv_property, hidx]
  · intro x; simp only [Interpolation_Pdv_Host.set_pdv_id, hidx]
  · simp only [Interpolation_Pdv_Host.get_pdv_id_type, hidx]
  · simp only [Interpolation_Pdv_Host.is_active_type, hidx]
  · intro x; simp only [Interpolation_Pdv_Host.set_global_index_for_pdv_type, hidx]
  · simp only [Interpolation_Pdv_Host.get_global_index_for_pdv_type, hidx]
  · simp only [Interpolation_Pdv_Host.get_pdv_value, hidx]
  · simp only [Interpolation_Pdv_Host.get_pdv_exists, hidx]

/-- Instance of C7 for the sample host and its unmapped PDV type 1. -/
theorem Interpolation_Pdv_Host_type_check_witness :
    Interpolation_Pdv_Host.sample.mPdvHostManager.get_pdv_type_map[1]? = some (-1)
    ∧ Interpolation_Pdv_Host.sample.get_pdv_exists 1 = .error .pdv_type_does_not_exist :=
  ⟨by decide,
    (Interpolation_Pdv_Host_type_check Pdv_Class.sample 32 Interpolation_Pdv_Host.sample 1
      (by decide)).2.2.2.2.2.2.2.2.2⟩

/-- C8: for every slot index `i` below `get_num_pdvs()`, `get_pdv_id(i)` returns
the id of the PDV in slot `i` when there is one and -1 when the slot is empty,
and for a PDV type that the type map sends to slot `i`, `get_pdv_id(type)`
returns the same as `get_pdv_id(i)`. -/
theorem Interpolation_Pdv_Host_get_pdv_id_spec (h : Interpolation_Pdv_Host) (i : Nat)
    (hi : i < h.get_num_pdvs) :
    (∀ tPdv : Pdv, h.mPDVs[i]? = some (some tPdv) → h.get_pdv_id i = .ok tPdv.get_id)
    ∧ (h.mPDVs[i]? = some none → h.get_pdv_id i = .ok (-1))
    ∧ (∃ tId : Int, h.get_pdv_id i = .ok tId)
    ∧ ∀ aPDVType : PDV_Type,
        h.mPdvHostManager.get_pdv_type_map[aPDVType]? = some (i : Int) →
          h.get_pdv_id_type aPDVType = h.get_pdv_id i := by
  refine ⟨?_, ?_, ?_, ?_⟩
  · intro tPdv hslot
    simp only [Interpolation_Pdv_Host.get_pdv_id, hslot]
  · intro hslot
    simp only [Interpolation_Pdv_Host.get_pdv_id, hslot]
  · have hslot : h.mPDVs[i]? = some h.mPDVs[i] := List.getElem?_eq_getElem hi
    cases hp : h.mPDVs[i] with
    | none => exact ⟨-1, by simp only [Interpolation_Pdv_Host.get_pdv_id, hslot, hp]⟩
    | some tPdv =>
      exact ⟨tPdv.get_id, by simp only [Interpolation_Pdv_Host.get_pdv_id, hslot, hp]⟩
  · intro aPDVType hmap
    simp [Interpolation_Pdv_Host.get_pdv_id_type, pdv_index_of_map h aPDVType i hmap]

/-- Instance of C8 for slot 1 of the sample host, reached by PDV type 0. -/
theorem Interpolation_Pdv_Host_get_pdv_id_spec_witness :
    1 < Interpolation_Pdv_Host.sample.get_num_pdvs
    ∧ Interpolation_Pdv_Host.sample.get_pdv_id 1 = .ok 42
    ∧ Interpolation_Pdv_Host.sample.get_pdv_id_type 0
        = Interpolation_Pdv_Host.sample.get_pdv_id 1 :=
  ⟨by decide,
    (Interpolation_Pdv_Host_get_pdv_id_spec Interpolation_Pdv_Host.sample 1
      (by decide)).1 ⟨.Pdv_Value 3, 42, true⟩ (by decide),
    (Interpolation_Pdv_Host_get_pdv_id_spec Interpolation_Pdv_Host.sample 1
      (by decide)).2.2.2 0 (by decide)⟩

/-- C9: when the PDV type is mapped to a slot that already holds a PDV,
`create_pdv(type, value)` raises no error and returns the host unchanged, for
every value passed: the PDV in that slot, its value and its id are kept and no
slot is modified. -/
theorem Interpolation_Pdv_Host_create_pdv_value_existing (c : Pdv_Class)
    (h : Interpolation_Pdv_Host) (aPDVType : PDV_Type) (i : Nat) (tPdv : Pdv)
    (aPdvVal : real)
    (hmap : h.mPdvHostManager.get_pdv_type_map[aPDVType]? = some (i : Int))
    (hslot : h.mPDVs[i]? = some (some tPdv)) :
    h.create_pdv_value c aPDVType aPdvVal = .ok h := by
  simp only [Interpolation_Pdv_Host.create_pdv_value, pdv_index_of_map h aPDVType i hmap,
    cell_get_natCast h.mPDVs i (some tPdv) hslot]

/-- Instance of C9 for the sample host, whose slot 1 is occupied. -/
theorem Interpolation_Pdv_Host_create_pdv_value_existing_witness :
    Interpolation_Pdv_Host.sample.mPdvHostManager.get_pdv_type_map[0]? = some ((1 : Nat) : Int)
    ∧ Interpolation_Pdv_Host.sample.mPDVs[1]? = some (some ⟨.Pdv_Value 3, 42, true⟩)
    ∧ Interpolation_Pdv_Host.sample.create_pdv_value Pdv_Class.sample 0 5
        = .ok Interpolation_Pdv_Host.sample :=
  ⟨by decide, by decide,
    Interpolation_Pdv_Host_create_pdv_value_existing Pdv_Class.sample
      Interpolation_Pdv_Host.sample 0 1 ⟨.Pdv_Value 3, 42, true⟩ 5 (by decide) (by decide)⟩

/-- C10: when the PDV type is mapped to a valid slot, `create_pdv(type, property)`
with a non-null property stores a new property PDV in that slot whether the
slot was empty or occupied, raises no error and leaves every other slot and
member unchanged; a null property is rejected. -/
theorem Interpolation_Pdv_Host_create_pdv_property_spec (c : Pdv_Class)
    (h : Interpolation_Pdv_Host) (aPDVType : PDV_Type) (i : Nat) (aProperty : Property)
    (hmap : h.mPdvHostManager.get_pdv_type_map[aPDVType]? = some (i : Int))
    (hi : i < h.get_num_pdvs) :
    (∃ h1 : Interpolation_Pdv_Host,
        h.create_pdv_property c aPDVType (some aProperty) = .ok h1
        ∧ h1.mPDVs[i]? = some (some (c.make_Pdv_Property aProperty))
        ∧ (c.make_Pdv_Property aProperty).kind = .Pdv_Property aProperty
        ∧ (∀ j : Nat, j ≠ i → h1.mPDVs[j]? = h.mPDVs[j]?)
        ∧ h1.get_num_pdvs = h.get_num_pdvs
        ∧ h1.mPdvHostManager = h.mPdvHostManager
        ∧ h1.mNodeIndex = h.mNodeIndex ∧ h1.mNodeId = h.mNodeId
        ∧ h1.mNodeOwner = h.mNodeOwner ∧ h1.mCoordinates = h.mCoordinates)
    ∧ h.create_pdv_property c aPDVType none = .error .property_is_nullptr := by
  have hslot : h.mPDVs[i]? = some h.mPDVs[i] := List.getElem?_eq_getElem hi
  refine ⟨⟨{ h with mPDVs := h.mPDVs.set i (some (c.make_Pdv_Property aProperty)) },
    ?_, ?_, rfl, ?_, ?_, rfl, rfl, rfl, rfl, rfl⟩, rfl⟩
  · simp only [Interpolation_Pdv_Host.create_pdv_property,
      pdv_index_of_map h aPDVType i hmap, cell_get_natCast h.mPDVs i _ hslot,
      Int.toNat_ofNat]
  · have hi1 : i < h.mPDVs.length := hi
    simp [List.getElem?_set, hi1]
  · intro j hj
    simp [List.getElem?_set, Ne.symm hj]
  · simp [Interpolation_Pdv_Host.get_num_pdvs]

/-- Instance of C10 for the sample host, whose slot 1 is occupied. -/
theorem Interpolation_Pdv_Host_create_pdv_property_spec_witness :
    Interpolation_Pdv_Host.sample.mPdvHostManager.get_pdv_type_map[0]? = some ((1 : Nat) : Int)
    ∧ 1 < Interpolation_Pdv_Host.sample.get_num_pdvs
    ∧ (∃ h1 : Interpolation_Pdv_Host,
        Interpolation_Pdv_Host.sample.create_pdv_property Pdv_Class.sample 0 (some ⟨9⟩)
          = .ok h1
        ∧ h1.mPDVs[1]? = some (some (Pdv_Class.sample.make_Pdv_Property ⟨9⟩))
        ∧ (Pdv_Class.sample.make_Pdv_Property ⟨9⟩).kind = .Pdv_Property ⟨9⟩
        ∧ (∀ j : Nat, j ≠ 1 → h1.mPDVs[j]? = Interpolation_Pdv_Host.sample.mPDVs[j]?)
        ∧ h1.get_num_pdvs = Interpolation_Pdv_Host.sample.get_num_pdvs
        ∧ h1.mPdvHostManager = Interpolation_Pdv_Host.sample.mPdvHostManager
        ∧ h1.mNodeIndex = Interpolation_Pdv_Host.sample.mNodeIndex
        ∧ h1.mNodeId = Interpolation_Pdv_Host.sample.mNodeId
        ∧ h1.mNodeOwner = Interpolation_Pdv_Host.sample.mNodeOwner
        ∧ h1.mCoordinates = Interpolation_Pdv_Host.sample.mCoordinates) :=
  ⟨by decide, by decide,
    (Interpolation_Pdv_Host_create_pdv_property_spec Pdv_Class.sample
      Interpolation_Pdv_Host.sample 0 1 ⟨9⟩ (by decide) (by decide)).1⟩

/-- The property PDV replaces the value PDV with id 42 that slot 1 of the sample
host held; the new PDV carries the initial id. -/
theorem Interpolation_Pdv_Host_create_pdv_property_example :
    (match Interpolation_Pdv_Host.sample.create_pdv_property Pdv_Class.sample 0 (some ⟨9⟩) with
      | .ok h1 => h1.mPDVs
      | .error _ => [])
      = [none, some ⟨.Pdv_Property ⟨9⟩, -1, true⟩] := by
  decide

/-- C11: for every slot index `i` below `get_num_pdvs()`, when slot `i` is
empty or its PDV is inactive, `get_sensitivities(i)` and
`get_determining_adv_ids(i)` each return the empty 0x0 matrix; otherwise each
returns what the PDV in slot `i` returns for the node index and coordinates of
the host. -/
theorem Interpolation_Pdv_Host_get_sensitivities_spec (c : Pdv_Class)
    (h : Interpolation_Pdv_Host) (i : Nat) (hi : i < h.get_num_pdvs) :
    (∃ tSlot : Option Pdv, h.mPDVs[i]? = some tSlot)
    ∧ (h.mPDVs[i]? = some none →
        h.get_sensitivities c i = .ok (Matrix.empty real)
        ∧ h.get_determining_adv_ids c i = .ok (Matrix.empty Int))
    ∧ (∀ tPdv : Pdv, h.mPDVs[i]? = some (some tPdv) → tPdv.mIsActive = false →
        h.get_sensitivities c i = .ok (Matrix.empty real)
        ∧ h.get_determining_adv_ids c i = .ok (Matrix.empty Int))
    ∧ (∀ tPdv : Pdv, h.mPDVs[i]? = some (some tPdv) → tPdv.mIsActive = true →
        h.get_sensitivities c i
          = .ok (c.get_sensitivities tPdv h.mNodeIndex h.mCoordinates)
        ∧ h.get_determining_adv_ids c i
          = .ok (c.get_determining_adv_ids tPdv h.mNodeIndex h.mCoordinates))
    ∧ (Matrix.empty real).n_rows = 0 ∧ (Matrix.empty real).n_cols = 0
    ∧ (Matrix.empty Int).n_rows = 0 ∧ (Matrix.empty Int).n_cols = 0 := by
  refine ⟨⟨h.mPDVs[i], List.getElem?_eq_getElem hi⟩, ?_, ?_, ?_, rfl, rfl, rfl, rfl⟩
  · intro hslot
    simp only [Interpolation_Pdv_Host.get_sensitivities,
      Interpolation_Pdv_Host.get_determining_adv_ids, hslot, and_self]
  · intro tPdv hslot hact
    simp [Interpolation_Pdv_Host.get_sensitivities,
      Interpolation_Pdv_Host.get_determining_adv_ids, hslot, hact]
  · intro tPdv hslot hact
    simp [Interpolation_Pdv_Host.get_sensitivities,
      Interpolation_Pdv_Host.get_determining_adv_ids, hslot, hact]

/-- Instance of C11 for the sample host: slot 0 is empty, slot 1 holds an active
PDV. -/
theorem Interpolation_Pdv_Host_get_sensitivities_spec_witness :
    1 < Interpolation_Pdv_Host.sample.get_num_pdvs
    ∧ Interpolation_Pdv_Host.sample.get_sensitivities Pdv_Class.sample 1
        = .ok ⟨1, 2, [1, 2]⟩
    ∧ Interpolation_Pdv_Host.sample.get_determining_adv_ids Pdv_Class.sample 1
        = .ok ⟨1, 2, [42, 7]⟩ :=
  ⟨by decide,
    (Interpolation_Pdv_Host_get_sensitivities_spec Pdv_Class.sample
      Interpolation_Pdv_Host.sample 1 (by decide)).2.2.2.1
      ⟨.Pdv_Value 3, 42, true⟩ (by decide) rfl⟩

/-- C12: constructing a `Plane` from ADVs succeeds exactly when the number of
field variables is 4 or 6; with 4 both 2D evaluators are selected, with 6 both
3D evaluators, and every other number aborts with an error. -/
theorem Plane_construct_spec (aFieldVariables : List real) :
    ((∃ tPlane : Plane, Plane.construct aFieldVariables = .ok tPlane)
      ↔ (aFieldVariables.length = 4 ∨ aFieldVariables.length = 6))
    ∧ (aFieldVariables.length = 4 →
        Plane.construct aFieldVariables
          = .ok ⟨aFieldVariables, some .eval_field_2d, some .eval_sensitivity_2d⟩)
    ∧ (aFieldVariables.length = 6 →
        Plane.construct aFieldVariables
          = .ok ⟨aFieldVariables, some .eval_field_3d, some .eval_sensitivity_3d⟩)
    ∧ (aFieldVariables.length ≠ 4 → aFieldVariables.length ≠ 6 →
        Plane.construct aFieldVariables = .error .incorrect_number_of_parameters) := by
  unfold Plane.construct
  by_cases h4 : aFieldVariables.length = 4
  · simp [h4]
  · by_cases h6 : aFieldVariables.length = 6
    · simp [h6]
    · simp [h4, h6]

/-- Runs of the constructor of `Plane` with 4, 6 and 5 field variables. -/
theorem Plane_construct_example :
    Plane.construct [0, 0, 1, 0] = .ok ⟨[0, 0, 1, 0], some .eval_field_2d,
      some .eval_sensitivity_2d⟩
    ∧ Plane.construct [0, 0, 0, 1, 0, 0] = .ok ⟨[0, 0, 0, 1, 0, 0], some .eval_field_3d,
      some .eval_sensitivity_3d⟩
    ∧ Plane.construct [0, 0, 0, 1, 0] = .error .incorrect_number_of_parameters :=
  ⟨rfl, rfl, rfl⟩

/-- Setting the id of the PDV in an occupied slot and reading the slot back. -/
theorem cell_get_set_self {α : Type} (aCell : List α) (i : Nat) (x y : α)
    (hx : aCell[i]? = some x) : cell_get (aCell.set i y) (i : Int) = .ok y := by
  have hi : i < aCell.length := by
    rcases List.getElem?_eq_some.mp hx with ⟨hlt, -⟩
    exact hlt
  simp [cell_get, List.getElem?_set, hi]

/-- The conversion to `uint` keeps an id that lies in the range of `uint`. -/
theorem uint_of_moris_id_of_range (aUintBits : Nat) (aId : Int) (h0 : 0 ≤ aId)
    (h1 : aId < (2 : Int) ^ aUintBits) : (uint_of_moris_id aUintBits aId : Int) = aId := by
  unfold uint_of_moris_id
  rw [Int.emod_eq_of_lt h0 h1]
  exact Int.toNat_of_nonneg h0

/-- C13 fails as stated: after `set_global_index_for_pdv_type( type, -1 )` on the
sample host, `get_global_index_for_pdv_type( type )` with a 32-bit `uint`
returns 4294967295, not -1. -/
theorem Interpolation_Pdv_Host_global_index_negative_counterexample :
    ¬ (∀ h1 : Interpolation_Pdv_Host,
        Interpolation_Pdv_Host.sample.set_global_index_for_pdv_type 0 (-1) = .ok h1 →
        ∃ tIndex : Nat, h1.get_global_index_for_pdv_type 32 0 = .ok tIndex
          ∧ (tIndex : Int) = -1) := by
  intro hall
  obtain ⟨tIndex, -, hneg⟩ := hall _ rfl
  omega

/-- C13 amended: for a PDV type mapped to a slot holding a PDV and every id,
`set_global_index_for_pdv_type` succeeds and `get_global_index_for_pdv_type`
then returns the id converted to `uint`, its residue modulo two to the width of
`uint`; that is the id itself when the id is not negative and fits in a `uint`. -/
theorem Interpolation_Pdv_Host_global_index_roundtrip (aUintBits : Nat)
    (h : Interpolation_Pdv_Host) (aPDVType : PDV_Type) (i : Nat) (tPdv : Pdv) (aId : Int)
    (hmap : h.mPdvHostManager.get_pdv_type_map[aPDVType]? = some (i : Int))
    (hslot : h.mPDVs[i]? = some (some tPdv)) :
    ∃ h1 : Interpolation_Pdv_Host,
      h.set_global_index_for_pdv_type aPDVType aId = .ok h1
      ∧ h1.get_global_index_for_pdv_type aUintBits aPDVType
          = .ok (uint_of_moris_id aUintBits aId)
      ∧ (0 ≤ aId → aId < (2 : Int) ^ aUintBits →
          ((uint_of_moris_id aUintBits aId : Nat) : Int) = aId) := by
  refine ⟨{ h with mPDVs := h.mPDVs.set i (some (tPdv.set_id aId)) }, ?_, ?_, ?_⟩
  · simp only [Interpolation_Pdv_Host.set_global_index_for_pdv_type,
      pdv_index_of_map h aPDVType i hmap, cell_get_natCast h.mPDVs i _ hslot,
      Int.toNat_ofNat]
  · have hidx : Interpolation_Pdv_Host.pdv_index
        { h with mPDVs := h.mPDVs.set i (some (tPdv.set_id aId)) } aPDVType = .ok (i : Int) :=
      pdv_index_of_map _ aPDVType i hmap
    simp only [Interpolation_Pdv_Host.get_global_index_for_pdv_type, hidx,
      cell_get_set_self h.mPDVs i _ _ hslot]
    rfl
  · exact uint_of_moris_id_of_range aUintBits aId

/-- Instance of the amended C13 for the sample host and the id 5. -/
theorem Interpolation_Pdv_Host_global_index_roundtrip_witness :
    Interpolation_Pdv_Host.sample.mPdvHostManager.get_pdv_type_map[0]? = some ((1 : Nat) : Int)
    ∧ Interpolation_Pdv_Host.sample.mPDVs[1]? = some (some ⟨.Pdv_Value 3, 42, true⟩)
    ∧ ∃ h1 : Interpolation_Pdv_Host,
      Interpolation_Pdv_Host.sample.set_global_index_for_pdv_type 0 5 = .ok h1
      ∧ h1.get_global_index_for_pdv_type 32 0 = .ok (uint_of_moris_id 32 5)
      ∧ (0 ≤ (5 : Int) → (5 : Int) < (2 : Int) ^ 32 →
          ((uint_of_moris_id 32 5 : Nat) : Int) = 5) :=
  ⟨by decide, by decide,
    Interpolation_Pdv_Host_global_index_roundtrip 32 Interpolation_Pdv_Host.sample 0 1
      ⟨.Pdv_Value 3, 42, true⟩ 5 (by decide) (by decide)⟩

/-- The run behind the counterexample to C13: the id -1 comes back as
4294967295 through a 32-bit `uint`. -/
theorem Interpolation_Pdv_Host_global_index_negative_example :
    (match Interpolation_Pdv_Host.sample.set_global_index_for_pdv_type 0 (-1) with
      | .ok h1 => h1.get_global_index_for_pdv_type 32 0
      | .error e => .error e)
      = .ok 4294967295 := by
  rfl

/-- Writing row `k` of a column and cutting it below row `k + 1`. -/
theorem take_succ_set {α : Type} (aColumn : List α) (k : Nat) (x : α)
    (hk : k < aColumn.length) : (aColumn.set k x).take (k + 1) = aColumn.take k ++ [x] := by
  induction aColumn generalizing k with
  | nil => exact absurd hk (Nat.not_lt_zero k)
  | cons y ys ih =>
    cases k with
    | zero => simp
    | succ k =>
      simp only [List.set_cons_succ, List.take_succ_cons, List.cons_append, List.cons.injEq,
        true_and]
      exact ih k (Nat.lt_of_succ_lt_succ hk)

/-- Loop invariant of `get_all_global_indices`: started with the counter at
`aCounter` and enough rows left, the loop over `aPdvs` advances the counter by
the number of PDVs that exist, keeps the size of the column and the rows below
`aCounter`, and writes the ids of the PDVs that exist, in order, from row
`aCounter` on. -/
theorem get_all_global_indices_loop_spec (aPdvs : List (Option Pdv)) (aColumn : List Int)
    (aCounter : Nat) (hroom : aCounter + aPdvs.length ≤ aColumn.length) :
    (aPdvs.foldl get_all_global_indices_loop (aColumn, aCounter)).2
        = aCounter + (aPdvs.filterMap (fun tPdv => tPdv.map Pdv.get_id)).length
    ∧ (aPdvs.foldl get_all_global_indices_loop (aColumn, aCounter)).1.length = aColumn.length
    ∧ (aPdvs.foldl get_all_global_indices_loop (aColumn, aCounter)).1.take
          (aPdvs.foldl get_all_global_indices_loop (aColumn, aCounter)).2
        = aColumn.take aCounter ++ aPdvs.filterMap (fun tPdv => tPdv.map Pdv.get_id) := by
  induction aPdvs generalizing aColumn aCounter with
  | nil => simp
  | cons tPdv tRest ih =>
    simp only [List.length_cons] at hroom
    cases tPdv with
    | none =>
      simp only [List.foldl_cons, get_all_global_indices_loop, List.filterMap_cons,
        Option.map_none']
      exact ih aColumn aCounter (by omega)
    | some p =>
      simp only [List.foldl_cons, get_all_global_indices_loop, List.filterMap_cons,
        Option.map_some', List.length_cons]
      obtain ⟨h2, hlen, htake⟩ := ih (aColumn.set aCounter p.get_id) (aCounter + 1)
        (by rw [List.length_set]; omega)
      refine ⟨by rw [h2]; omega, by rw [hlen, List.length_set], ?_⟩
      rw [htake]
      have hlt : aCounter < aColumn.length := by omega
      rw [take_succ_set aColumn aCounter p.get_id hlt]
      simp

/-- C14: `get_all_global_indices` returns the ids of the PDVs in the non-empty
slots, in increasing slot order; its length is the number of non-empty slots,
which is at most `get_num_pdvs()`, and empty slots contribute no entry. -/
theorem Interpolation_Pdv_Host_get_all_global_indices_spec (h : Interpolation_Pdv_Host) :
    h.get_all_global_indices = h.mPDVs.filterMap (fun tPdv => tPdv.map Pdv.get_id)
    ∧ h.get_all_global_indices.length = (h.mPDVs.filter Option.isSome).length
    ∧ h.get_all_global_indices.length ≤ h.get_num_pdvs := by
  have hspec := get_all_global_indices_loop_spec h.mPDVs (List.replicate h.mPDVs.length 0) 0
    (by simp)
  have heq : h.get_all_global_indices
      = h.mPDVs.filterMap (fun tPdv => tPdv.map Pdv.get_id) := by
    unfold Interpolation_Pdv_Host.get_all_global_indices
    simp only []
    rw [hspec.2.2]
    simp
  have hcount : ∀ l : List (Option Pdv),
      (l.filterMap (fun tPdv => tPdv.map Pdv.get_id)).length
        = (l.filter Option.isSome).length := by
    intro l
    induction l with
    | nil => rfl
    | cons x xs ih => cases x <;> simp [List.filterMap_cons, List.filter_cons, ih]
  refine ⟨heq, ?_, ?_⟩
  · rw [heq, hcount]
  · rw [heq, hcount]
    exact List.length_filter_le _ _

/-- A run of `get_all_global_indices` on a host with the slots empty, id 42,
empty, id -3: the empty slots are skipped and the order of the slots is kept. -/
theorem Interpolation_Pdv_Host_get_all_global_indices_example :
    Interpolation_Pdv_Host.get_all_global_indices
      { Interpolation_Pdv_Host.sample with
        mPDVs := [none, some ⟨.Pdv_Value 3, 42, true⟩, none,
          some ⟨.Pdv_Property ⟨9⟩, -3, false⟩] }
      = [42, -3] := by
  decide

end ge
end moris
